import Mathlib

/-
Verification development for the locness-streamlit data pipeline.

Shallow embedding of the data-refresh / resampling pipeline:
  * src/main.py        : get_data_from_db, resample_data, the auto-refresh block
  * src/locness_app/data.py : DataManager.get_data_relation, get_data_for_plotting
  * src/config.py and src/locness_app/config.py : get_config_value

Timestamps are modelled as epoch seconds (Int); measurement columns as
rationals (exact arithmetic standing in for float64 where the properties at
stake are exact).  SQL `ORDER BY timestamp` and pandas sorting are modelled by
insertion sort on the timestamp; SQL WHERE clauses by List.filter.
-/

namespace Locness

/-- One row of the `sensor_data` table: a timestamp plus the numeric
measurement columns of src/main.py (`lat`, `lon`, `temp`, `salinity`,
`rhodamine`, `pH`; the `ph_ma` column of the locness_app variant behaves
identically — averaged like every other column — and is folded into `ph`
here). -/
structure Reading where
  ts : Int
  lat : ℚ
  lon : ℚ
  temp : ℚ
  salinity : ℚ
  rhodamine : ℚ
  ph : ℚ
deriving DecidableEq

/-- Timestamp (non-strict) order on readings, the key of `ORDER BY timestamp`. -/
def tsLe (a b : Reading) : Prop := a.ts ≤ b.ts

/-- Strict timestamp order on readings. -/
def tsLt (a b : Reading) : Prop := a.ts < b.ts

instance : DecidableRel tsLe := fun a b => inferInstanceAs (Decidable (a.ts ≤ b.ts))

instance : DecidableRel tsLt := fun a b => inferInstanceAs (Decidable (a.ts < b.ts))

instance : IsTotal Reading tsLe := ⟨fun a b => Int.le_total a.ts b.ts⟩

instance : IsTrans Reading tsLe := ⟨fun _ _ _ h1 h2 => le_trans h1 h2⟩

/-- `ORDER BY timestamp`: sort the rows ascending by timestamp. -/
def sortByTs (rows : List Reading) : List Reading := List.insertionSort tsLe rows

/-- src/main.py `get_data_from_db(since_timestamp=None)`: with a since
timestamp the query is `SELECT * FROM sensor_data WHERE timestamp > ? ORDER BY
timestamp` (strictly greater), without one it is the full table ordered by
timestamp. -/
def get_data_from_db (since : Option Int) (rows : List Reading) : List Reading :=
  match since with
  | some t => sortByTs (rows.filter fun r => decide (t < r.ts))
  | none => sortByTs rows

/-- Bucket start for width `w`: the timestamp floored to the bucket boundary
(floor division on epoch seconds), as pandas `resample` and DuckDB
`time_bucket` align buckets. -/
def bucketStart (w t : Int) : Int := (Int.fdiv t w) * w

/-- Arithmetic mean of a list of rationals (pandas `mean` on a non-empty
group; groups in `resample_data` are non-empty by construction, mirroring the
`.dropna()` that discards empty buckets). -/
def qmean (l : List ℚ) : ℚ := l.sum / l.length

/-- The distinct bucket keys present in the data, ascending: pandas groups the
rows by the floored timestamp; empty buckets are dropped by `.dropna()`, so
only keys that occur in the data survive. -/
def bucketKeys (w : Int) (rows : List Reading) : List Int :=
  (List.insertionSort (fun a b : Int => a ≤ b) (rows.map fun r => bucketStart w r.ts)).dedup

/-- The rows contributing to the bucket with key `k`. -/
def bucketGroup (w : Int) (k : Int) (rows : List Reading) : List Reading :=
  rows.filter fun r => decide (bucketStart w r.ts = k)

/-- The aggregated output row of one bucket: the unweighted mean of every
measurement column over the contributing rows (the `agg_dict` of
`resample_data`, every column aggregated by `mean`). -/
def bucketRow (w : Int) (rows : List Reading) (k : Int) : Reading :=
  let grp := bucketGroup w k rows
  { ts := k
    lat := qmean (grp.map Reading.lat)
    lon := qmean (grp.map Reading.lon)
    temp := qmean (grp.map Reading.temp)
    salinity := qmean (grp.map Reading.salinity)
    rhodamine := qmean (grp.map Reading.rhodamine)
    ph := qmean (grp.map Reading.ph) }

/-- src/main.py `resample_data(df, resample_freq)`: returns the empty frame
unchanged, otherwise `df.resample(freq).agg(mean-per-column).dropna()` — one
output row per non-empty bucket, ascending by bucket start. -/
def resample_data (w : Int) (rows : List Reading) : List Reading :=
  if rows = [] then rows
  else (bucketKeys w rows).map (bucketRow w rows)

/-- src/main.py auto-refresh block (lines around 306-325): on a due refresh
the code fetches the WHOLE table (`get_data_from_db()` with no since
argument), filters to `df.index >= cutoff_time`, optionally resamples, and
assigns the result to `st.session_state.data_cache`.  The previous cache
content is not consulted on this path (the `cache` argument is deliberately
unused, mirroring the source). -/
def autoRefreshStep (db : List Reading) (cutoff : Int) (freq : Option Int)
    (cache : List Reading) : List Reading :=
  let df := get_data_from_db none db
  let df2 := if df = [] then df else df.filter fun r => decide (cutoff ≤ r.ts)
  match freq with
  | some f => if df2 = [] then df2 else resample_data f df2
  | none => df2

/-- Largest timestamp in a list of readings (0 for the empty list; used only
as the watermark of a non-empty cache with non-negative timestamps). -/
def maxTs (rows : List Reading) : Int := rows.foldl (fun m r => max m r.ts) 0

/-- Last-write-wins deduplication by timestamp: keep a row only if no
later-positioned row carries the same timestamp. -/
def dedupLastWins : List Reading → List Reading
  | [] => []
  | r :: rest =>
    if rest.any (fun x => decide (x.ts = r.ts)) then dedupLastWins rest
    else r :: dedupLastWins rest

/-- The incremental refresh AS THE CLAIM DESCRIBES IT (written from the
claim wording, for comparison with `autoRefreshStep`): query only rows with
timestamp strictly greater than the watermark of the cache, concatenate to
the cached series, deduplicate keeping the later-arriving value per
timestamp. -/
def refreshClaimedC1 (db cache : List Reading) : List Reading :=
  dedupLastWins (cache ++ get_data_from_db (some (maxTs cache)) db)

/-- Error raised by the store layer: `duckdb.connect` creates a missing file,
so the connection itself succeeds, and `SELECT ... FROM sensor_data` raises a
catalog error when the table does not exist. -/
inductive DbErr
  | catalogError
deriving DecidableEq

/-- Fallible variant of the fetch: the database is `none` when the
`sensor_data` table is missing (store unavailable), in which case the SELECT
raises; there is no try/except in `get_data_from_db`. -/
def get_data_from_dbE (since : Option Int) (db : Option (List Reading)) :
    Except DbErr (List Reading) :=
  match db with
  | none => Except.error DbErr.catalogError
  | some rows => Except.ok (get_data_from_db since rows)

/-- The auto-refresh block with the fallible fetch: src/main.py wraps the
fetch in no try/except, so a store error propagates out of the block; the
cache assignment only happens after a successful fetch. -/
def autoRefreshBlockE (db : Option (List Reading)) (cutoff : Int)
    (freq : Option Int) : Except DbErr (List Reading) :=
  match get_data_from_dbE none db with
  | Except.error e => Except.error e
  | Except.ok df =>
    let df2 := if df = [] then df else df.filter fun r => decide (cutoff ≤ r.ts)
    Except.ok (match freq with
      | some f => if df2 = [] then df2 else resample_data f df2
      | none => df2)

/-- One scripted refresh at the session level: Streamlit session state keeps
its previous value when the script run aborts on an uncaught exception, and
the framework (outside this repository) displays the exception. -/
def sessionRefresh (db : Option (List Reading)) (cutoff : Int)
    (freq : Option Int) (cache : List Reading) : List Reading × Option DbErr :=
  match autoRefreshBlockE db cutoff freq with
  | Except.ok df => (df, none)
  | Except.error e => (cache, some e)

/-- src/locness_app/data.py `get_data_relation` base query rows: `SELECT *
FROM sensor_data [WHERE timestamp >= ?] ORDER BY timestamp` — note the
inclusive `>=` bound, unlike the strict bound of `get_data_from_db`. -/
def query_range_ge (cutoff : Option Int) (rows : List Reading) : List Reading :=
  match cutoff with
  | some t => sortByTs (rows.filter fun r => decide (t ≤ r.ts))
  | none => sortByTs rows

/-- Error taxonomy for the plotting pipeline.  `invalidParameter` is the
rejection the specification prescribes for a bad bucket width; the code never
produces it. -/
inductive PipeErr
  | storeUnavailable
  | valueError
  | invalidParameter
deriving DecidableEq

/-- Client-side resampling step as pandas executes it.  Modelled library
behavior: `df.resample(freq)` raises a ValueError for a non-positive
frequency; otherwise it aggregates as `resample_data` does. -/
def pandasResample (w : Int) (rows : List Reading) : Except PipeErr (List Reading) :=
  if w ≤ 0 then Except.error PipeErr.valueError
  else Except.ok (resample_data w rows)

/-- src/locness_app/data.py `get_data_for_plotting`, SQLite branch: run the
range query first (raising store-unavailable when the table is missing), then
— only when the frame is non-empty — apply the pandas resampling when a
frequency is given.  No width validation happens anywhere. -/
def get_data_for_plotting_sqlite (db : Option (List Reading)) (cutoff : Option Int)
    (freq : Option Int) : Except PipeErr (List Reading) :=
  match db with
  | none => Except.error PipeErr.storeUnavailable
  | some rows =>
    let df := query_range_ge cutoff rows
    if df = [] then Except.ok df
    else
      match freq with
      | none => Except.ok df
      | some w => pandasResample w df

/-- Single-quote character, used to spell the SQL string literally. -/
def sq : String := String.singleton (Char.ofNat 39)

/-- The SELECT-list lines of the native bucketed query built by
src/locness_app/data.py `get_data_relation` (one string per source line,
indentation stripped), with the resample frequency interpolated.  The line
`AVG(ph) AS ph` lacks the trailing comma present on every other non-final
item — exactly as in the source. -/
def native_select_items (freq : String) : List String :=
  ["time_bucket(" ++ sq ++ freq ++ sq ++ ", timestamp) AS timestamp,",
   "AVG(lat) AS lat,",
   "AVG(lon) AS lon,",
   "AVG(temp) AS temp,",
   "AVG(salinity) AS salinity,",
   "AVG(rhodamine) AS rhodamine,",
   "AVG(ph) AS ph",
   "AVG(ph_ma) AS ph_ma"]

/-- The full native bucketed query string of `get_data_relation` (without a
time cutoff), assembled from its lines. -/
def get_data_relation_query (freq : String) : String :=
  "SELECT \n" ++ String.intercalate "\n" (native_select_items freq) ++
  "\nFROM (SELECT * FROM sensor_data ORDER BY timestamp)\nGROUP BY 1\nORDER BY 1"

/-- Whether a string ends with a comma. -/
def lastIsComma (s : String) : Bool :=
  match s.data.getLast? with
  | some c => c = ','
  | none => false

/-- A comma-separated SQL select list is syntactically well-formed only if
every item except the last ends with the comma separating it from the next
item. -/
def selectListSeparated (items : List String) : Bool :=
  items.dropLast.all lastIsComma

-- Configuration (src/config.py and src/locness_app/config.py).

/-- A configuration value: the file and defaults hold strings or integers. -/
inductive ConfigValue
  | intV : Int → ConfigValue
  | strV : String → ConfigValue
deriving DecidableEq

/-- Python `str.upper()` on ASCII keys. -/
def pyUpper (s : String) : String := String.mk (s.data.map Char.toUpper)

/-- Accumulate the decimal value of a digit run; fails on a non-digit. -/
def digitsToNatAux : Nat → List Char → Option Nat
  | acc, [] => some acc
  | acc, c :: rest =>
    if c.isDigit then digitsToNatAux (acc * 10 + (c.toNat - 48)) rest
    else none

/-- Decimal value of a non-empty all-digit character run. -/
def digitsToNat : List Char → Option Nat
  | [] => none
  | l => digitsToNatAux 0 l

/-- Model of Python `int(val)` on a string: an optional sign followed by one
or more digits parses; anything else raises (here: `none`).  Surrounding
whitespace handling is omitted — no claim involves it. -/
def pyParseInt (s : String) : Option Int :=
  match s.data with
  | [] => none
  | c :: rest =>
    if c = '-' then (digitsToNat rest).map (fun n => -(n : Int))
    else if c = '+' then (digitsToNat rest).map (fun n => (n : Int))
    else (digitsToNat (c :: rest)).map (fun n => (n : Int))

/-- The built-in DEFAULTS dict of src/config.py; `none` models the KeyError a
missing key raises. -/
def DEFAULTS : String → Option ConfigValue := fun k =>
  if k = "update_frequency" then some (ConfigValue.intV 10)
  else if k = "resample" then some (ConfigValue.strV "1min")
  else if k = "file_path" then some (ConfigValue.strV "oceanographic_data.duckdb")
  else none

/-- The value `get_config_value` derives from an environment variable: for
`update_frequency` the string is converted with `int(val)`, and on a parse
failure the exception is swallowed (`except: pass`) and the raw string is
returned; every other key returns the raw string. -/
def envInterp (key : String) (val : String) : ConfigValue :=
  if key = "update_frequency" then
    match pyParseInt val with
    | some n => ConfigValue.intV n
    | none => ConfigValue.strV val
  else ConfigValue.strV val

/-- src/config.py `get_config_value(key)`: try the upper-cased environment
variable first (converting `update_frequency` to int when possible, falling
back to the raw string), then the TOML config file, then DEFAULTS. -/
def get_config_value (environ : String → Option String)
    (config : String → Option ConfigValue) (key : String) : Option ConfigValue :=
  match environ (pyUpper key) with
  | some val =>
    some (if key = "update_frequency" then
            match pyParseInt val with
            | some n => ConfigValue.intV n
            | none => ConfigValue.strV val
          else ConfigValue.strV val)
  | none =>
    match config key with
    | some v => some v
    | none => DEFAULTS key

-- Concrete inputs used by witnesses and counterexamples.

/-- Spec example rows: readings every 10 s with every measurement column
carrying the value column v = 1..6. -/
def specRows : List Reading :=
  [⟨0, 1, 1, 1, 1, 1, 1⟩, ⟨10, 2, 2, 2, 2, 2, 2⟩, ⟨20, 3, 3, 3, 3, 3, 3⟩,
   ⟨30, 4, 4, 4, 4, 4, 4⟩, ⟨40, 5, 5, 5, 5, 5, 5⟩, ⟨50, 6, 6, 6, 6, 6, 6⟩]

/-- Store content for the C1 counterexample: the row at timestamp 5 carries
temp 99, and a newer row sits at timestamp 6. -/
def dbC1 : List Reading := [⟨5, 0, 0, 99, 0, 0, 0⟩, ⟨6, 0, 0, 1, 0, 0, 0⟩]

/-- Cache content for the C1 counterexample: the earlier-fetched row at
timestamp 5 carries temp 10. -/
def cacheC1 : List Reading := [⟨5, 0, 0, 10, 0, 0, 0⟩]

/-- Store with two rows sharing timestamp 5 (the store schema does not forbid
duplicate timestamps and the pipeline never deduplicates). -/
def dbDup : List Reading := [⟨5, 0, 0, 1, 0, 0, 0⟩, ⟨5, 0, 0, 2, 0, 0, 0⟩]

/-- A one-row store used by witnesses. -/
def dbOne : List Reading := [⟨5, 1, 1, 1, 1, 1, 1⟩]

/-- Environment for the C9 witness: only RESAMPLE is set. -/
def env9 : String → Option String := fun k =>
  if k = "RESAMPLE" then some "5min" else none

/-- Empty environment. -/
def envNone : String → Option String := fun _ => none

/-- Config file for the C9 witness: it defines `resample`. -/
def cfg9 : String → Option ConfigValue := fun k =>
  if k = "resample" then some (ConfigValue.strV "10s") else none

/-- Empty config file. -/
def cfgNone : String → Option ConfigValue := fun _ => none

/-- Environment for the C10 witness: UPDATE_FREQUENCY parses as an integer. -/
def env10a : String → Option String := fun k =>
  if k = "UPDATE_FREQUENCY" then some "42" else none

/-- Environment for the C10 witness: UPDATE_FREQUENCY does not parse. -/
def env10b : String → Option String := fun k =>
  if k = "UPDATE_FREQUENCY" then some "fast" else none

end Locness

namespace Locness

-- Helper lemmas shared across claims.

/-- The insertion sort by timestamp is sorted. -/
theorem sorted_sortByTs (rows : List Reading) : List.Sorted tsLe (sortByTs rows) :=
  List.sorted_insertionSort tsLe rows

/-- Membership is preserved by the sort. -/
theorem mem_sortByTs {r : Reading} {rows : List Reading} : r ∈ sortByTs rows ↔ r ∈ rows :=
  (List.perm_insertionSort tsLe rows).mem_iff

/-- A timestamp-sorted list with pairwise-distinct timestamps is strictly
ascending. -/
theorem pairwise_lt_of_sorted_nodup :
    ∀ l : List Reading, List.Sorted tsLe l → (l.map Reading.ts).Nodup →
      List.Pairwise tsLt l := by
  intro l
  induction l with
  | nil => intro _ _; exact List.Pairwise.nil
  | cons a l ih =>
    intro hs hn
    rw [List.map_cons, List.nodup_cons] at hn
    rw [List.sorted_cons] at hs
    refine List.Pairwise.cons ?_ (ih hs.2 hn.2)
    intro b hb
    refine lt_of_le_of_ne (hs.1 b hb) ?_
    intro he
    exact hn.1 (List.mem_map.mpr ⟨b, hb, he.symm⟩)

/-- Filtering the sorted full query keeps the timestamp column duplicate-free
whenever the store had no duplicate timestamps. -/
theorem nodup_ts_filter_sortByTs (db : List Reading) (p : Reading → Bool)
    (h : (db.map Reading.ts).Nodup) :
    (((sortByTs db).filter p).map Reading.ts).Nodup := by
  have h1 : ((sortByTs db).map Reading.ts).Nodup := by
    have hp : ((sortByTs db).map Reading.ts).Perm (db.map Reading.ts) :=
      (List.perm_insertionSort tsLe db).map Reading.ts
    exact hp.nodup_iff.mpr h
  exact List.Nodup.sublist (List.Sublist.map Reading.ts (List.filter_sublist _)) h1

/-- The bucket keys of a resampling run are strictly ascending. -/
theorem bucketKeys_pairwise_lt (w : Int) (rows : List Reading) :
    List.Pairwise (fun a b : Int => a < b) (bucketKeys w rows) := by
  have hs : List.Sorted (fun a b : Int => a ≤ b)
      (List.insertionSort (fun a b : Int => a ≤ b) (rows.map fun r => bucketStart w r.ts)) :=
    List.sorted_insertionSort _ _
  have hsd : List.Pairwise (fun a b : Int => a ≤ b) (bucketKeys w rows) :=
    List.Pairwise.sublist (List.dedup_sublist _) hs
  have hnd : (bucketKeys w rows).Nodup := List.nodup_dedup _
  exact (hsd.and hnd).imp fun h => lt_of_le_of_ne h.1 h.2

/-- The resampled output is strictly ascending by bucket start, for every
input and width. -/
theorem resample_pairwise_lt (w : Int) (rows : List Reading) :
    List.Pairwise tsLt (resample_data w rows) := by
  unfold resample_data
  by_cases h : rows = []
  · rw [if_pos h, h]; exact List.Pairwise.nil
  · rw [if_neg h]
    refine List.Pairwise.map (bucketRow w rows) ?_ (bucketKeys_pairwise_lt w rows)
    intro a b hab
    exact hab

/-- Concrete evaluation of the spec example: six readings 10 s apart with
values 1..6, bucket width 30 s. -/
theorem resample30_eval :
    resample_data 30 specRows = [⟨0, 2, 2, 2, 2, 2, 2⟩, ⟨30, 5, 5, 5, 5, 5, 5⟩] := by
  have hne : ¬ (specRows = []) := by decide
  have hk : bucketKeys 30 specRows = [0, 30] := by decide
  have hg0 : bucketGroup 30 0 specRows =
      [⟨0, 1, 1, 1, 1, 1, 1⟩, ⟨10, 2, 2, 2, 2, 2, 2⟩, ⟨20, 3, 3, 3, 3, 3, 3⟩] := by decide
  have hg30 : bucketGroup 30 30 specRows =
      [⟨30, 4, 4, 4, 4, 4, 4⟩, ⟨40, 5, 5, 5, 5, 5, 5⟩, ⟨50, 6, 6, 6, 6, 6, 6⟩] := by decide
  unfold resample_data
  rw [if_neg hne, hk]
  simp only [List.map_cons, List.map_nil]
  unfold bucketRow
  rw [hg0, hg30]
  simp only [List.map_cons, List.map_nil]
  norm_num [qmean, Reading.mk.injEq]

end Locness

namespace Locness

/-- Claim C5: resampling readings at timestamps 0,10,20,30,40,50 s with value
column v = 1..6 at bucket width 30 s yields exactly two rows, bucket [0,30)
with mean 2 and bucket [30,60) with mean 5, buckets aligned by flooring the
timestamp to the bucket boundary. -/
theorem C5_resample_example :
    resample_data 30 specRows = [⟨0, 2, 2, 2, 2, 2, 2⟩, ⟨30, 5, 5, 5, 5, 5, 5⟩] :=
  resample30_eval

/-- Claim C6: every output row of a resampling run has at least one
contributing reading — a bucket with zero contributing readings produces no
output row. -/
theorem C6_no_empty_buckets (w : Int) (rows : List Reading) (b : Reading)
    (hw : 0 < w) (hb : b ∈ resample_data w rows) :
    ∃ r ∈ rows, bucketStart w r.ts = b.ts := by
  unfold resample_data at hb
  by_cases h : rows = []
  · rw [if_pos h, h] at hb
    exact absurd hb (List.not_mem_nil b)
  · rw [if_neg h] at hb
    rcases List.mem_map.mp hb with ⟨k, hk, hbk⟩
    have hk2 : k ∈ rows.map fun r => bucketStart w r.ts := by
      have hmem := List.mem_dedup.mp hk
      exact (List.perm_insertionSort _ _).mem_iff.mp hmem
    rcases List.mem_map.mp hk2 with ⟨r, hr, hrk⟩
    refine ⟨r, hr, ?_⟩
    rw [← hbk]
    exact hrk

/-- Witness for C6 at the spec example: width 30 is positive, the bucket row
starting at 0 is in the output, and it has a contributing reading. -/
theorem C6_witness :
    (0 : Int) < 30 ∧ (⟨0, 2, 2, 2, 2, 2, 2⟩ : Reading) ∈ resample_data 30 specRows ∧
      ∃ r ∈ specRows, bucketStart 30 r.ts = (⟨0, 2, 2, 2, 2, 2, 2⟩ : Reading).ts :=
  ⟨by decide, by rw [resample30_eval]; exact List.mem_cons_self _ _,
   C6_no_empty_buckets 30 specRows ⟨0, 2, 2, 2, 2, 2, 2⟩ (by decide)
     (by rw [resample30_eval]; exact List.mem_cons_self _ _)⟩

/-- Claim C2 (code bug): the SELECT list of the native bucketed query built
by get_data_relation is not a well-formed comma-separated list — the item
`AVG(ph) AS ph` is not followed by a comma although another item follows it,
so the analytical backend raises a parser error instead of producing bucketed
means comparable to the client-side resampling. -/
theorem C2_native_query_malformed :
    selectListSeparated (native_select_items "1min") = false := by decide

/-- Counterexample for claim C1: with a non-empty cache holding temp 10 at
timestamp 5 while the store holds temp 99 at timestamp 5 plus a newer row,
the code (full reload, replace) and the claimed behavior (fetch strictly
newer than the watermark, concatenate, dedup last-wins) disagree. -/
theorem C1_counterexample :
    autoRefreshStep dbC1 0 none cacheC1 ≠ refreshClaimedC1 dbC1 cacheC1 := by decide

/-- Claim C1 as amended: a due refresh performs a full reload — the result is
the window-filtered, timestamp-sorted content of the whole store, independent
of the cache and its watermark; the query helper's optional since-parameter
does use a strictly-greater bound, but the refresh path never passes it. -/
theorem C1_full_reload (db : List Reading) (cutoff : Int) (cache : List Reading) :
    autoRefreshStep db cutoff none cache =
      (sortByTs db).filter (fun r => decide (cutoff ≤ r.ts)) ∧
    ∀ t r, r ∈ get_data_from_db (some t) db ↔ (r ∈ db ∧ t < r.ts) := by
  constructor
  · show (if sortByTs db = [] then sortByTs db
          else (sortByTs db).filter fun r => decide (cutoff ≤ r.ts)) =
        (sortByTs db).filter fun r => decide (cutoff ≤ r.ts)
    by_cases h : sortByTs db = []
    · rw [h]
      simp
    · rw [if_neg h]
  · intro t r
    unfold get_data_from_db sortByTs
    rw [(List.perm_insertionSort tsLe _).mem_iff, List.mem_filter]
    simp [decide_eq_true_eq]

/-- Witness for C1: the amended equation applied at the counterexample
store. -/
theorem C1_witness :
    autoRefreshStep dbC1 0 none cacheC1 =
      (sortByTs dbC1).filter (fun r => decide ((0 : Int) ≤ r.ts)) :=
  (C1_full_reload dbC1 0 cacheC1).1

end Locness

namespace Locness

/-- Counterexample for claim C3: with two stored rows sharing timestamp 5
(the schema does not forbid this and the pipeline never deduplicates), the
cache after a refresh is not strictly ascending by timestamp. -/
theorem C3_counterexample :
    ¬ List.Pairwise tsLt (autoRefreshStep dbDup 0 none []) := by decide

/-- Claim C3 as amended: after every refresh the cached series is sorted
non-decreasing by timestamp; it is strictly ascending (at most one row per
timestamp) provided the stored rows have pairwise-distinct timestamps — the
code performs no deduplication of its own. -/
theorem C3_sorted_after_refresh (db : List Reading) (cutoff : Int)
    (freq : Option Int) (cache : List Reading) :
    List.Sorted tsLe (autoRefreshStep db cutoff freq cache) ∧
    ((db.map Reading.ts).Nodup → List.Pairwise tsLt (autoRefreshStep db cutoff freq cache)) := by
  have hbase : List.Sorted tsLe ((sortByTs db).filter fun r => decide (cutoff ≤ r.ts)) :=
    (sorted_sortByTs db).filter _
  cases freq with
  | none =>
    have he : autoRefreshStep db cutoff none cache =
        if sortByTs db = [] then sortByTs db
        else (sortByTs db).filter fun r => decide (cutoff ≤ r.ts) := rfl
    rw [he]
    by_cases h : sortByTs db = []
    · rw [if_pos h, h]
      exact ⟨List.sorted_nil, fun _ => List.Pairwise.nil⟩
    · rw [if_neg h]
      exact ⟨hbase, fun hn =>
        pairwise_lt_of_sorted_nodup _ hbase (nodup_ts_filter_sortByTs db _ hn)⟩
  | some f =>
    have hx : ∀ l : List Reading,
        List.Pairwise tsLt (if l = [] then l else resample_data f l) := by
      intro l
      by_cases h : l = []
      · rw [if_pos h, h]
        exact List.Pairwise.nil
      · rw [if_neg h]
        exact resample_pairwise_lt f l
    have he : autoRefreshStep db cutoff (some f) cache =
        (if (if sortByTs db = [] then sortByTs db
             else (sortByTs db).filter fun r => decide (cutoff ≤ r.ts)) = []
         then (if sortByTs db = [] then sortByTs db
               else (sortByTs db).filter fun r => decide (cutoff ≤ r.ts))
         else resample_data f
           (if sortByTs db = [] then sortByTs db
            else (sortByTs db).filter fun r => decide (cutoff ≤ r.ts))) := rfl
    rw [he]
    have hp := hx (if sortByTs db = [] then sortByTs db
                   else (sortByTs db).filter fun r => decide (cutoff ≤ r.ts))
    exact ⟨hp.imp (fun h => le_of_lt h), fun _ => hp⟩

/-- Witness for C3: a store with distinct timestamps yields a strictly
ascending cache. -/
theorem C3_witness :
    (dbOne.map Reading.ts).Nodup ∧ List.Pairwise tsLt (autoRefreshStep dbOne 0 none []) :=
  ⟨by decide, (C3_sorted_after_refresh dbOne 0 none []).2 (by decide)⟩

/-- Counterexample for claim C4: with the sensor_data table missing, the
refresh block terminates with an uncaught exception — there is no try/except
in src/main.py converting the failure into a status message. -/
theorem C4_counterexample :
    autoRefreshBlockE none 0 none = Except.error DbErr.catalogError := rfl

/-- Claim C4 as amended: when the fetch fails, the session cache is left
unchanged (the cache assignment only runs after a successful fetch, so there
is no partial mutation), but the error is not converted into a status message
by the application code — the exception propagates out of the script run and
the surrounding framework displays it. -/
theorem C4_failed_fetch_keeps_cache (cutoff : Int) (freq : Option Int)
    (cache : List Reading) :
    sessionRefresh none cutoff freq cache = (cache, some DbErr.catalogError) := rfl

/-- Claim C7: a range query whose cutoff lies strictly beyond every stored
timestamp returns the empty sequence — on both the strict-bound query of
src/main.py and the inclusive-bound query of src/locness_app/data.py — and
does not fail. -/
theorem C7_future_cutoff_empty (rows : List Reading) (cutoff : Int)
    (hfut : ∀ r ∈ rows, r.ts < cutoff) :
    get_data_from_db (some cutoff) rows = [] ∧
    query_range_ge (some cutoff) rows = [] ∧
    get_data_from_dbE (some cutoff) (some rows) = Except.ok [] := by
  have h1 : rows.filter (fun r => decide (cutoff < r.ts)) = [] := by
    rw [List.filter_eq_nil_iff]
    intro a ha
    simp only [decide_eq_true_eq]
    exact not_lt.mpr (le_of_lt (hfut a ha))
  have h2 : rows.filter (fun r => decide (cutoff ≤ r.ts)) = [] := by
    rw [List.filter_eq_nil_iff]
    intro a ha
    simp only [decide_eq_true_eq]
    exact not_le.mpr (hfut a ha)
  refine ⟨?_, ?_, ?_⟩
  · show sortByTs (rows.filter fun r => decide (cutoff < r.ts)) = []
    rw [h1]
    rfl
  · show sortByTs (rows.filter fun r => decide (cutoff ≤ r.ts)) = []
    rw [h2]
    rfl
  · show Except.ok (get_data_from_db (some cutoff) rows) = Except.ok []
    rw [show get_data_from_db (some cutoff) rows =
          sortByTs (rows.filter fun r => decide (cutoff < r.ts)) from rfl, h1]
    rfl

/-- Witness for C7: a cutoff of 10 lies beyond the single stored timestamp 5
and every query form returns empty without failing. -/
theorem C7_witness :
    (∀ r ∈ dbOne, r.ts < 10) ∧ get_data_from_db (some 10) dbOne = [] ∧
      query_range_ge (some 10) dbOne = [] ∧
      get_data_from_dbE (some 10) (some dbOne) = Except.ok [] :=
  ⟨by decide, (C7_future_cutoff_empty dbOne 10 (by decide)).1,
   (C7_future_cutoff_empty dbOne 10 (by decide)).2.1,
   (C7_future_cutoff_empty dbOne 10 (by decide)).2.2⟩

/-- Counterexample for claim C8: with bucket width 0 the pipeline does not
fail with InvalidParameter — on a non-empty store it surfaces the pandas
ValueError raised during resampling, and on a missing store the query error
comes first, i.e. nothing is rejected before querying. -/
theorem C8_counterexample :
    get_data_for_plotting_sqlite (some dbOne) none (some 0) =
        Except.error PipeErr.valueError ∧
      (Except.error PipeErr.valueError : Except PipeErr (List Reading)) ≠
        Except.error PipeErr.invalidParameter ∧
      get_data_for_plotting_sqlite none none (some 0) =
        Except.error PipeErr.storeUnavailable := by
  refine ⟨rfl, ?_, rfl⟩
  intro h
  simp at h

/-- Claim C8 as amended: a non-positive bucket width is not validated
anywhere; the range query executes first and the invalid width then surfaces
as a library ValueError inside the resampling step (and only when the queried
frame is non-empty) — never as a pre-query InvalidParameter rejection. -/
theorem C8_no_width_validation (rows : List Reading) (cutoff : Option Int)
    (w : Int) (hw : w ≤ 0) (hne : ¬ (query_range_ge cutoff rows = [])) :
    get_data_for_plotting_sqlite (some rows) cutoff (some w) =
      Except.error PipeErr.valueError := by
  show (if query_range_ge cutoff rows = [] then Except.ok (query_range_ge cutoff rows)
        else pandasResample w (query_range_ge cutoff rows)) =
      Except.error PipeErr.valueError
  rw [if_neg hne]
  unfold pandasResample
  rw [if_pos hw]

/-- Witness for C8: width 0 on the one-row store yields the ValueError. -/
theorem C8_witness :
    (0 : Int) ≤ 0 ∧ ¬ (query_range_ge none dbOne = []) ∧
      get_data_for_plotting_sqlite (some dbOne) none (some 0) =
        Except.error PipeErr.valueError :=
  ⟨le_refl 0, by decide, C8_no_width_validation dbOne none 0 (le_refl 0) (by decide)⟩

/-- Claim C9: configuration precedence — a set environment variable always
determines the result (via `envInterp`); otherwise a key defined in the
config file wins; otherwise the built-in default applies. -/
theorem C9_config_precedence (environ : String → Option String)
    (config : String → Option ConfigValue) (key : String) :
    (∀ v, environ (pyUpper key) = some v →
       get_config_value environ config key = some (envInterp key v)) ∧
    (environ (pyUpper key) = none → ∀ w, config key = some w →
       get_config_value environ config key = some w) ∧
    (environ (pyUpper key) = none → config key = none →
       get_config_value environ config key = DEFAULTS key) := by
  refine ⟨?_, ?_, ?_⟩
  · intro v hv
    unfold get_config_value envInterp
    rw [hv]
  · intro he w hw
    unfold get_config_value
    rw [he, hw]
  · intro he hc
    unfold get_config_value
    rw [he, hc]

/-- Witness for C9: the environment beats the config file for `resample`; a
config-file entry beats the default; with neither, the default is returned. -/
theorem C9_witness :
    get_config_value env9 cfg9 "resample" = some (envInterp "resample" "5min") ∧
      get_config_value envNone cfg9 "resample" = some (ConfigValue.strV "10s") ∧
      get_config_value envNone cfgNone "resample" = DEFAULTS "resample" :=
  ⟨(C9_config_precedence env9 cfg9 "resample").1 "5min" (by decide),
   (C9_config_precedence envNone cfg9 "resample").2.1 (by decide)
     (ConfigValue.strV "10s") (by decide),
   (C9_config_precedence envNone cfgNone "resample").2.2 (by decide) (by decide)⟩

/-- Claim C10: with UPDATE_FREQUENCY set, `get_config_value` returns the
parsed integer when the string parses as an integer, and silently returns the
raw string unchanged when it does not — no exception, no fallback to the
config file or the default. -/
theorem C10_env_update_frequency (environ : String → Option String)
    (config : String → Option ConfigValue) :
    (∀ s n, environ "UPDATE_FREQUENCY" = some s → pyParseInt s = some n →
       get_config_value environ config "update_frequency" = some (ConfigValue.intV n)) ∧
    (∀ s, environ "UPDATE_FREQUENCY" = some s → pyParseInt s = none →
       get_config_value environ config "update_frequency" = some (ConfigValue.strV s)) := by
  have hup : pyUpper "update_frequency" = "UPDATE_FREQUENCY" := by decide
  constructor
  · intro s n hs hp
    unfold get_config_value
    rw [hup, hs]
    show some (if "update_frequency" = "update_frequency" then
                 match pyParseInt s with
                 | some m => ConfigValue.intV m
                 | none => ConfigValue.strV s
               else ConfigValue.strV s) = some (ConfigValue.intV n)
    rw [if_pos rfl, hp]
  · intro s hs hp
    unfold get_config_value
    rw [hup, hs]
    show some (if "update_frequency" = "update_frequency" then
                 match pyParseInt s with
                 | some m => ConfigValue.intV m
                 | none => ConfigValue.strV s
               else ConfigValue.strV s) = some (ConfigValue.strV s)
    rw [if_pos rfl, hp]

/-- Witness for C10: "42" parses and is returned as the integer 42; "fast"
does not parse and is returned as the raw string. -/
theorem C10_witness :
    pyParseInt "42" = some 42 ∧
      get_config_value env10a cfgNone "update_frequency" = some (ConfigValue.intV 42) ∧
      pyParseInt "fast" = none ∧
      get_config_value env10b cfgNone "update_frequency" = some (ConfigValue.strV "fast") :=
  ⟨by decide, (C10_env_update_frequency env10a cfgNone).1 "42" 42 (by decide) (by decide),
   by decide, (C10_env_update_frequency env10b cfgNone).2 "fast" (by decide) (by decide)⟩

end Locness
